import Mathlib

/-!
Verification development for the typebot-client-whatsapp middleware.

The definitions below are a shallow embedding of the stateful core of the
repository: the input-resolution engine (src/services/choice-matcher.service.ts),
the session state store (src/services/session.service.ts), the dialogue-session
resolver and redirect handling (src/services/typebot.service.ts and
src/services/message-processing.service.ts), and the per-user lock
(src/utils/user-lock.ts).  Strings are modelled as Lean strings, timestamps as
integer milliseconds, and JavaScript regular-expression operations are embedded
at the character level with the ASCII word-character and whitespace classes used
by the JavaScript regex engine.
-/

namespace Typebot

/-- Word character of the JavaScript regex word class: ASCII letters, digits and
underscore (code points 97..122, 65..90, 48..57 and 95). -/
def isWordChar (c : Char) : Bool :=
  (97 ≤ c.toNat && c.toNat ≤ 122) || (65 ≤ c.toNat && c.toNat ≤ 90) ||
  (48 ≤ c.toNat && c.toNat ≤ 57) || c.toNat == 95

/-- Whitespace of the JavaScript regex whitespace class, also used by
String.prototype.trim: tab through carriage return, space, no-break space, the
Unicode space separators, the line and paragraph separators and the BOM. -/
def isSpaceChar (c : Char) : Bool :=
  c.toNat == 32 || c.toNat == 9 || c.toNat == 10 || c.toNat == 11 ||
  c.toNat == 12 || c.toNat == 13 || c.toNat == 160 || c.toNat == 0x1680 ||
  (0x2000 ≤ c.toNat && c.toNat ≤ 0x200a) || c.toNat == 0x2028 ||
  c.toNat == 0x2029 || c.toNat == 0x202f || c.toNat == 0x205f ||
  c.toNat == 0x3000 || c.toNat == 0xfeff

/-- Digit character, the JavaScript regex digit class. -/
def isDigitChar (c : Char) : Bool := 48 ≤ c.toNat && c.toNat ≤ 57

/-- Lowercasing of a character as JavaScript String.prototype.toLowerCase acts
on the ASCII and Latin-1 ranges: uppercase A..Z and À..Þ (except the
multiplication sign) move down by 32; everything else is unchanged. -/
def lowerChar (c : Char) : Char :=
  if 65 ≤ c.toNat && c.toNat ≤ 90 then Char.ofNat (c.toNat + 32)
  else if 192 ≤ c.toNat && c.toNat ≤ 222 && c.toNat != 215 then Char.ofNat (c.toNat + 32)
  else c

/-- Drop leading and trailing whitespace from a character list, as
String.prototype.trim does. -/
def trimList (cs : List Char) : List Char :=
  ((cs.dropWhile isSpaceChar).reverse.dropWhile isSpaceChar).reverse

/-- String.prototype.trim. -/
def jsTrim (s : String) : String := String.mk (trimList s.data)

/-- Whether an optional character (none stands for the edge of the string) is a
word character; string edges count as non-word. -/
def isWordOpt : Option Char → Bool
  | some c => isWordChar c
  | none => false

/-- A regex word boundary holds at a position iff exactly one of the characters
around it is a word character. -/
def isBoundary (l r : Option Char) : Bool := isWordOpt l != isWordOpt r

/-- The filler-word alternatives of the cleanText regex of
choice-matcher.service.ts, in source order. -/
def fillerWords : List (List Char) :=
  ["um", "uh", "eh", "ah", "hmm", "er", "erm", "like", "you know",
   "então", "né", "tipo", "assim"].map String.data

/-- Attempt to match one filler-word alternative at the head of cs, with prev
the character just before the current position.  Mirrors the regex engine: the
leading word boundary is checked at the position, then the alternatives are
tried in order, each requiring a literal match followed by a word boundary.
Returns the length of the matched text. -/
def matchFillerAt (prev : Option Char) (cs : List Char) : Option Nat :=
  if isBoundary prev cs.head? then
    fillerWords.findSome? fun w =>
      if w.isPrefixOf cs && isBoundary w.getLast? ((cs.drop w.length).head?) then
        some w.length
      else none
  else none

/-- Global replacement of the filler-word regex by a single space, scanning left
to right and resuming after each match, as String.prototype.replace with the g
flag does.  Fuel is the length of the list; every step consumes at least one
character. -/
def fillerReplaceGo : Nat → Option Char → List Char → List Char
  | 0, _, cs => cs
  | _ + 1, _, [] => []
  | fuel + 1, prev, c :: rest =>
    match matchFillerAt prev (c :: rest) with
    | some len =>
        ' ' :: fillerReplaceGo fuel ((c :: rest).take len).getLast? ((c :: rest).drop len)
    | none => c :: fillerReplaceGo fuel (some c) rest

/-- Replace every match of the filler-word regex by a single space. -/
def fillerReplace (cs : List Char) : List Char := fillerReplaceGo cs.length none cs

/-- Replace every character that is neither a word character nor whitespace by a
space, as the punctuation-stripping replace of cleanText does. -/
def punctToSpace (cs : List Char) : List Char :=
  cs.map fun c => if !isWordChar c && !isSpaceChar c then ' ' else c

/-- Collapse every maximal run of whitespace into a single space, as the
whitespace-collapsing replace of cleanText does. -/
def collapseSpaces : Nat → List Char → List Char
  | 0, cs => cs
  | _ + 1, [] => []
  | fuel + 1, c :: rest =>
    if isSpaceChar c then ' ' :: collapseSpaces fuel (rest.dropWhile isSpaceChar)
    else c :: collapseSpaces fuel rest

/-- The cleanText normalization of choice-matcher.service.ts: lowercase, trim,
strip the filler words, turn punctuation into spaces, collapse whitespace and
trim again. -/
def cleanText (s : String) : String :=
  let lowered := trimList (s.data.map lowerChar)
  let noFiller := fillerReplace lowered
  let noPunct := punctToSpace noFiller
  let collapsed := collapseSpaces noPunct.length noPunct
  String.mk (trimList collapsed)

/-- Splitting on runs of whitespace, as String.prototype.split with a
whitespace-run regex does: an empty string yields one empty piece, a leading or
trailing separator yields an empty leading or trailing piece. -/
def splitWsGo : Nat → List Char → List Char → List (List Char)
  | 0, cur, _ => [cur.reverse]
  | _ + 1, cur, [] => [cur.reverse]
  | fuel + 1, cur, c :: rest =>
    if isSpaceChar c then cur.reverse :: splitWsGo fuel [] (rest.dropWhile isSpaceChar)
    else splitWsGo fuel (c :: cur) rest

/-- Split a character list on runs of whitespace. -/
def splitWs (cs : List Char) : List (List Char) := splitWsGo cs.length [] cs

/-- Leftmost match of the boundary-delimited digit-run regex of
findNumericMatch: the first maximal digit run whose neighbours on both sides are
non-word characters or string edges. -/
def findFirstDigitRunGo : Nat → Option Char → List Char → Option (List Char)
  | 0, _, _ => none
  | _ + 1, _, [] => none
  | fuel + 1, prev, c :: rest =>
    if isDigitChar c && !isWordOpt prev then
      if !isWordOpt (((c :: rest).dropWhile isDigitChar).head?) then
        some ((c :: rest).takeWhile isDigitChar)
      else findFirstDigitRunGo fuel (some c) rest
    else findFirstDigitRunGo fuel (some c) rest

/-- First boundary-delimited digit run of a character list. -/
def findFirstDigitRun (cs : List Char) : Option (List Char) :=
  findFirstDigitRunGo cs.length none cs

/-- Decimal value of a digit run, as parseInt with radix 10 reads it. -/
def parseDigits (cs : List Char) : Nat :=
  cs.foldl (fun n c => n * 10 + (c.toNat - 48)) 0

/-- A selectable choice as the matcher receives it. -/
structure ChoiceItem where
  id : String
  content : String
deriving Repr, DecidableEq

/-- The ChoiceMatchResult record of choice-matcher.service.ts; the score is kept
as a rational number. -/
structure ChoiceMatchResult where
  id : String
  content : String
  score : ℚ
deriving Repr, DecidableEq

/-- The numberWords table of choice-matcher.service.ts: Portuguese cardinal and
ordinal number words, in source order. -/
def numberWords : List (String × Nat) :=
  [("um", 1), ("uma", 1), ("primeiro", 1), ("primeira", 1),
   ("dois", 2), ("duas", 2), ("segundo", 2), ("segunda", 2),
   ("tres", 3), ("três", 3), ("terceiro", 3), ("terceira", 3),
   ("quatro", 4), ("quarto", 4), ("quarta", 4),
   ("cinco", 5), ("quinto", 5), ("quinta", 5),
   ("seis", 6), ("sexto", 6), ("sexta", 6),
   ("sete", 7), ("setimo", 7), ("sétimo", 7), ("setima", 7), ("sétima", 7),
   ("oito", 8), ("oitavo", 8), ("oitava", 8),
   ("nove", 9), ("nono", 9), ("nona", 9),
   ("dez", 10), ("decimo", 10), ("décimo", 10), ("decima", 10), ("décima", 10),
   ("onze", 11), ("décimo primeiro", 11), ("decimo primeiro", 11),
   ("doze", 12), ("décimo segundo", 12), ("decimo segundo", 12),
   ("treze", 13), ("décimo terceiro", 13), ("decimo terceiro", 13),
   ("quatorze", 14), ("catorze", 14), ("décimo quarto", 14), ("decimo quarto", 14),
   ("quinze", 15), ("décimo quinto", 15), ("decimo quinto", 15),
   ("dezesseis", 16), ("dezasseis", 16), ("décimo sexto", 16), ("decimo sexto", 16),
   ("dezessete", 17), ("dezassete", 17), ("décimo sétimo", 17), ("decimo setimo", 17),
   ("dezoito", 18), ("décimo oitavo", 18), ("decimo oitavo", 18),
   ("dezenove", 19), ("dezanove", 19), ("décimo nono", 19), ("decimo nono", 19),
   ("vinte", 20), ("vigésimo", 20), ("vigesimo", 20),
   ("vinte e um", 21), ("vinte e uma", 21),
   ("vinte e dois", 22), ("vinte e duas", 22),
   ("vinte e tres", 23), ("vinte e três", 23),
   ("vinte e quatro", 24),
   ("vinte e cinco", 25),
   ("vinte e seis", 26),
   ("vinte e sete", 27),
   ("vinte e oito", 28),
   ("vinte e nove", 29),
   ("trinta", 30), ("trigésimo", 30), ("trigesimo", 30),
   ("trinta e um", 31), ("trinta e uma", 31),
   ("trinta e dois", 32), ("trinta e duas", 32),
   ("trinta e tres", 33), ("trinta e três", 33),
   ("trinta e quatro", 34),
   ("trinta e cinco", 35),
   ("trinta e seis", 36),
   ("trinta e sete", 37),
   ("trinta e oito", 38),
   ("trinta e nove", 39),
   ("quarenta", 40), ("quadragésimo", 40), ("quadragesimo", 40),
   ("quarenta e um", 41), ("quarenta e uma", 41),
   ("quarenta e dois", 42), ("quarenta e duas", 42),
   ("quarenta e tres", 43), ("quarenta e três", 43),
   ("quarenta e quatro", 44),
   ("quarenta e cinco", 45),
   ("quarenta e seis", 46),
   ("quarenta e sete", 47),
   ("quarenta e oito", 48),
   ("quarenta e nove", 49),
   ("cinquenta", 50), ("quinquagésimo", 50), ("quinquagesimo", 50),
   ("cinquenta e um", 51), ("cinquenta e uma", 51),
   ("cinquenta e dois", 52), ("cinquenta e duas", 52),
   ("cinquenta e tres", 53), ("cinquenta e três", 53),
   ("cinquenta e quatro", 54),
   ("cinquenta e cinco", 55),
   ("cinquenta e seis", 56),
   ("cinquenta e sete", 57),
   ("cinquenta e oito", 58),
   ("cinquenta e nove", 59),
   ("sessenta", 60), ("sexagésimo", 60), ("sexagesimo", 60),
   ("sessenta e um", 61), ("sessenta e uma", 61),
   ("sessenta e dois", 62), ("sessenta e duas", 62),
   ("sessenta e tres", 63), ("sessenta e três", 63),
   ("sessenta e quatro", 64),
   ("sessenta e cinco", 65),
   ("sessenta e seis", 66),
   ("sessenta e sete", 67),
   ("sessenta e oito", 68),
   ("sessenta e nove", 69),
   ("setenta", 70), ("septuagésimo", 70), ("septuagesimo", 70),
   ("setenta e um", 71), ("setenta e uma", 71),
   ("setenta e dois", 72), ("setenta e duas", 72),
   ("setenta e tres", 73), ("setenta e três", 73),
   ("setenta e quatro", 74),
   ("setenta e cinco", 75),
   ("setenta e seis", 76),
   ("setenta e sete", 77),
   ("setenta e oito", 78),
   ("setenta e nove", 79),
   ("oitenta", 80), ("octogésimo", 80), ("octogesimo", 80),
   ("oitenta e um", 81), ("oitenta e uma", 81),
   ("oitenta e dois", 82), ("oitenta e duas", 82),
   ("oitenta e tres", 83), ("oitenta e três", 83),
   ("oitenta e quatro", 84),
   ("oitenta e cinco", 85),
   ("oitenta e seis", 86),
   ("oitenta e sete", 87),
   ("oitenta e oito", 88),
   ("oitenta e nove", 89),
   ("noventa", 90), ("nonagésimo", 90), ("nonagesimo", 90),
   ("noventa e um", 91), ("noventa e uma", 91),
   ("noventa e dois", 92), ("noventa e duas", 92),
   ("noventa e tres", 93), ("noventa e três", 93),
   ("noventa e quatro", 94),
   ("noventa e cinco", 95),
   ("noventa e seis", 96),
   ("noventa e sete", 97),
   ("noventa e oito", 98),
   ("noventa e nove", 99),
   ("cem", 100), ("centésimo", 100), ("centesimo", 100)]

/-- Digit half of findNumericMatch of choice-matcher.service.ts: the first
boundary-delimited digit run, if its value is between 1 and the number of
choices, selects that choice with score 1. -/
def digitStage (cleanTranscription : String) (choices : List ChoiceItem) :
    Option ChoiceMatchResult :=
  match findFirstDigitRun cleanTranscription.data with
  | some run =>
      let n := parseDigits run
      if 1 ≤ n ∧ n ≤ choices.length then
        (choices.get? (n - 1)).map fun c => ⟨c.id, c.content, 1⟩
      else none
  | none => none

/-- Spoken-number half of findNumericMatch of choice-matcher.service.ts: the
words of the cleaned transcription are scanned in order and the first one found
in the numberWords table with an in-range value selects that choice. -/
def wordStage (cleanTranscription : String) (choices : List ChoiceItem) :
    Option ChoiceMatchResult :=
  (splitWs cleanTranscription.data).findSome? fun w =>
    match numberWords.lookup (String.mk w) with
    | some n =>
        if 1 ≤ n ∧ n ≤ choices.length then
          (choices.get? (n - 1)).map fun c => ⟨c.id, c.content, 1⟩
        else none
    | none => none

/-- The findNumericMatch function of choice-matcher.service.ts: digit patterns
first, spoken Portuguese numbers second. -/
def findNumericMatch (cleanTranscription : String) (choices : List ChoiceItem) :
    Option ChoiceMatchResult :=
  match digitStage cleanTranscription choices with
  | some r => some r
  | none => wordStage cleanTranscription choices

/-- Substring containment, as String.prototype.includes checks it. -/
def containsSub : List Char → List Char → Bool
  | [], needle => needle.isEmpty
  | c :: t, needle => needle.isPrefixOf (c :: t) || containsSub t needle

/-- The findExactMatch function of choice-matcher.service.ts: the first choice,
in list order, whose cleaned label is contained in the cleaned transcription or
contains it, with score 1. -/
def findExactMatch (cleanTranscription : String) (choices : List ChoiceItem) :
    Option ChoiceMatchResult :=
  choices.findSome? fun choice =>
    let cleanChoice := cleanText choice.content
    if containsSub cleanTranscription.data cleanChoice.data ||
       containsSub cleanChoice.data cleanTranscription.data then
      some ⟨choice.id, choice.content, 1⟩
    else none

/-- One result row of the external Fuse.js search: the matched item and its
Fuse score (lower is better), which the library reports when includeScore is
set. -/
structure FuseResult where
  item : ChoiceItem
  score : Option ℚ

/-- The matchTranscriptionToChoice function of choice-matcher.service.ts.  The
Fuse.js collaborator is passed in as the fuseSearch argument: given the choice
list and the cleaned transcription it returns its result rows, best first.
Blank input or an empty choice list short-circuits to none; then the numeric,
exact and fuzzy stages run in priority order, the fuzzy stage converting the
Fuse score to a confidence and keeping it only at or above two fifths. -/
def matchTranscriptionToChoice
    (fuseSearch : List ChoiceItem → String → List FuseResult)
    (transcription : String) (choices : List ChoiceItem) : Option ChoiceMatchResult :=
  if jsTrim transcription = "" ∨ choices = [] then none
  else
    let cleanTranscription := cleanText transcription
    match findNumericMatch cleanTranscription choices with
    | some m => some m
    | none =>
      match findExactMatch cleanTranscription choices with
      | some m => some m
      | none =>
        match fuseSearch choices cleanTranscription with
        | r :: _ =>
          match r.score with
          | some fscore =>
              if (1 - fscore : ℚ) ≥ 2 / 5 then some ⟨r.item.id, r.item.content, 1 - fscore⟩
              else none
          | none => none
        | [] => none

/-! ### Session state store (src/services/session.service.ts) -/

/-- One entry of the in-memory activeChoiceSessions map. -/
structure ChoiceSessionEntry where
  sessionId : String
  choices : List ChoiceItem
  timestamp : Int
  currentTypebotSlug : Option String
deriving Repr, DecidableEq

/-- One entry of the in-memory expectedInputTypes map. -/
structure InputTypeEntry where
  inputType : String
  timestamp : Int
deriving Repr, DecidableEq

/-- One row of the durable activeChoice table; the choices column (stored as
JSON text) is modelled structurally. -/
structure ActiveChoiceRow where
  sessionId : String
  choices : List ChoiceItem
  typebotSlug : Option String
  expiresAt : Int
deriving Repr, DecidableEq

/-- One row of the durable expectedInputType table. -/
structure ExpectedInputRow where
  inputType : String
  expiresAt : Int
deriving Repr, DecidableEq

/-- The columns of the durable user table read and written by the core:
activeTypebotSlug and activeSessionId. -/
structure UserRecord where
  activeTypebotSlug : Option String
  activeSessionId : Option String
deriving Repr, DecidableEq

/-- The mutable state of the session store: the two in-memory maps, the two
durable tables behind them and the durable user table, each keyed by the user
identity. -/
structure St where
  users : List (String × UserRecord)
  choiceSessions : List (String × ChoiceSessionEntry)
  inputTypes : List (String × InputTypeEntry)
  dbChoices : List (String × ActiveChoiceRow)
  dbInputs : List (String × ExpectedInputRow)
deriving Repr, DecidableEq

/-- Keyed insertion or replacement, the Map.set and database upsert operation. -/
def mapSet {α : Type} (k : String) (v : α) (m : List (String × α)) : List (String × α) :=
  (k, v) :: m.filter fun p => p.1 != k

/-- Keyed removal, the Map.delete and database delete operation. -/
def mapDelete {α : Type} (k : String) (m : List (String × α)) : List (String × α) :=
  m.filter fun p => p.1 != k

/-- The 30-minute session time-to-live of session.service.ts, in milliseconds. -/
def SESSION_TTL_MS : Int := 30 * 60 * 1000

/-- The getActiveChoices function of session.service.ts: a missing entry yields
null; an entry older than thirty minutes is deleted from the in-memory map and
yields null; otherwise the stored choices are returned.  The current time is
read once. -/
def getActiveChoices (st : St) (now : Int) (waId : String) :
    Option (List ChoiceItem) × St :=
  match st.choiceSessions.lookup waId with
  | none => (none, st)
  | some session =>
      if session.timestamp < now - 30 * 60 * 1000 then
        (none, { st with choiceSessions := mapDelete waId st.choiceSessions })
      else (some session.choices, st)

/-- The setActiveChoices function of session.service.ts: replaces the in-memory
entry (keeping an existing typebot slug when none is given) and upserts the
durable row with expiry thirty minutes from now. -/
def setActiveChoices (st : St) (now : Int) (waId sessionId : String)
    (choices : List ChoiceItem) (typebotId : Option String) : St :=
  let existing := st.choiceSessions.lookup waId
  let slug := match typebotId with
    | some t => if t = "" then existing.bind (·.currentTypebotSlug) else some t
    | none => existing.bind (·.currentTypebotSlug)
  let entry : ChoiceSessionEntry := ⟨sessionId, choices, now, slug⟩
  let row : ActiveChoiceRow := ⟨sessionId, choices, slug, now + SESSION_TTL_MS⟩
  { st with choiceSessions := mapSet waId entry st.choiceSessions,
            dbChoices := mapSet waId row st.dbChoices }

/-- The body of the setInterval callback installed by
initializeSessionManagement of session.service.ts: in-memory choice sessions
and expected input types older than five minutes are deleted, and durable rows
whose expiresAt is in the past are deleted. -/
def sessionCleanupSweep (st : St) (now : Int) : St :=
  let fiveMinutesAgo := now - 5 * 60 * 1000
  { st with
    choiceSessions := st.choiceSessions.filter fun p => !decide (p.2.timestamp < fiveMinutesAgo),
    inputTypes := st.inputTypes.filter fun p => !decide (p.2.timestamp < fiveMinutesAgo),
    dbChoices := st.dbChoices.filter fun p => !decide (p.2.expiresAt < now),
    dbInputs := st.dbInputs.filter fun p => !decide (p.2.expiresAt < now) }

/-! ### Typebot service and dialogue-session resolution
(src/services/typebot.service.ts, src/services/message-processing.service.ts) -/

/-- The ServiceResponse shape of the repository: a success carrying data or a
reported failure carrying an error message. -/
inductive ServiceResponse (α : Type) where
  | ok (data : α)
  | fail (error : String)
deriving Repr, DecidableEq

/-- The sessionId argument of setActiveTypebotId, which distinguishes undefined
(leave the column unchanged), null (clear the column) and a string value. -/
inductive SessionIdArg where
  | undef
  | null
  | val (s : String)
deriving Repr, DecidableEq

/-- The update expression of setActiveTypebotId for the activeSessionId column:
null clears it, a non-empty string sets it, undefined or the falsy empty string
leaves it unchanged. -/
def applySessionIdArg (old : Option String) : SessionIdArg → Option String
  | .undef => old
  | .null => none
  | .val s => if s = "" then old else some s

/-- The setActiveTypebotId function of session.service.ts: updates the user
row (failing like the database client does when the user record is absent) and
refreshes the currentTypebotSlug of an existing in-memory choice entry. -/
def setActiveTypebotId (st : St) (waId typebotSlug : String)
    (sessionId : SessionIdArg) : ServiceResponse Unit × St :=
  match st.users.lookup waId with
  | none => (.fail "Record to update not found", st)
  | some u =>
      let u2 : UserRecord := ⟨some typebotSlug, applySessionIdArg u.activeSessionId sessionId⟩
      let st2 := { st with users := mapSet waId u2 st.users }
      let st3 := match st2.choiceSessions.lookup waId with
        | some entry =>
            let entry2 := { entry with currentTypebotSlug := some typebotSlug }
            { st2 with choiceSessions := mapSet waId entry2 st2.choiceSessions }
        | none => st2
      (.ok (), st3)

/-- The getActiveTypebotId function of session.service.ts: the user's
activeTypebotSlug when truthy, null otherwise. -/
def getActiveTypebotId (st : St) (waId : String) : Option String :=
  match st.users.lookup waId with
  | some u =>
      match u.activeTypebotSlug with
      | some s => if s = "" then none else some s
      | none => none
  | none => none

/-- The getActiveSessionId function of session.service.ts: the user's
activeSessionId when truthy, null otherwise. -/
def getActiveSessionId (st : St) (waId : String) : Option String :=
  match st.users.lookup waId with
  | some u =>
      match u.activeSessionId with
      | some s => if s = "" then none else some s
      | none => none
  | none => none

/-- The part of a Typebot chat API response that the embedded control flow
reads: the session identifier.  Messages, input specification and client side
actions are carried through to later stages without influencing the control
flow modelled here. -/
structure ChatResponse where
  sessionId : String
deriving Repr, DecidableEq

/-- A record of one outbound call to the remote Typebot API, used to observe
how many start, continue and update requests an operation performs. -/
inductive ApiCall where
  | callContinue (sessionId : String) (payload : String)
  | callStart (typebotId : String) (message : String)
  | callUpdateTypebot (sessionId : String) (newTypebotId : String)
deriving Repr, DecidableEq

/-- Wrapping of a collaborator outcome by withServiceResponse: a thrown error
becomes a reported failure. -/
def toServiceResponse {α : Type} : Except String α → ServiceResponse α
  | .ok a => .ok a
  | .error e => .fail e

/-- The truthiness-based or-else of JavaScript on nullable strings: an empty
string counts as absent. -/
def jsOrStr : Option String → Option String → Option String
  | some s, b => if s = "" then b else some s
  | none, b => b

/-- The isValidSessionId check of typebot.service.ts. -/
def isValidSessionId (s : String) : Bool := decide (s.length > 0)

/-- The startChat function of typebot.service.ts: the requested typebot id
falls back to the configured default, the API outcome is wrapped, and on
success the returned session id and the requested typebot slug are persisted
for the user (when one is known). -/
def startChat (defaultTypebotId : String) (api : Except String ChatResponse)
    (message : String) (waId : Option String) (typebotId : Option String)
    (st : St) : ServiceResponse ChatResponse × St × List ApiCall :=
  let activeTypebotId := match typebotId with
    | some t => if t = "" then defaultTypebotId else t
    | none => defaultTypebotId
  match api with
  | .error e => (.fail e, st, [.callStart activeTypebotId message])
  | .ok resp =>
      let st2 := match waId with
        | some w => (setActiveTypebotId st w activeTypebotId (.val resp.sessionId)).2
        | none => st
      (.ok resp, st2, [.callStart activeTypebotId message])

/-- The continueChat function of typebot.service.ts: a pure API passthrough
with no local state effects. -/
def continueChat (api : Except String ChatResponse) (sessionId payload : String) :
    ServiceResponse ChatResponse × List ApiCall :=
  (toServiceResponse api, [.callContinue sessionId payload])

/-- The interactWithTypebot function of message-processing.service.ts: with a
known valid session id it continues the conversation (sending the first file
URL instead of the text when files are attached); a continue failure whose
error mentions a missing session clears the persisted session id and retries
exactly once as a start with the user's active typebot (default when none);
without a session id it starts directly.  The outcome, the final state and the
list of API calls made are returned. -/
def interactWithTypebot (defaultTypebotId : String)
    (contApi startApi : Except String ChatResponse) (st : St)
    (content : String) (sessionId : Option String) (waId : Option String)
    (fileUrls : Option (List String)) :
    ServiceResponse ChatResponse × St × List ApiCall :=
  let activeTypebotId := match waId with
    | some w => getActiveTypebotId st w
    | none => none
  let activeSessionId := match waId with
    | some w => getActiveSessionId st w
    | none => none
  let effectiveSessionId := jsOrStr sessionId activeSessionId
  match effectiveSessionId with
  | some sid =>
    if isValidSessionId sid then
      let payload := match fileUrls with
        | some (f :: _) => f
        | _ => content
      let (contRes, calls1) := continueChat contApi sid payload
      match contRes with
      | .fail e =>
          if containsSub e.data "Session not found".data then
            let st2 := match waId with
              | some w =>
                  (setActiveTypebotId st w
                    (match activeTypebotId with
                     | some t => t
                     | none => defaultTypebotId) .null).2
              | none => st
            let (r, st3, calls2) := startChat defaultTypebotId startApi content waId activeTypebotId st2
            (r, st3, calls1 ++ calls2)
          else (.fail e, st, calls1)
      | .ok resp => (.ok resp, st, calls1)
    else startChat defaultTypebotId startApi content waId activeTypebotId st
  | none => startChat defaultTypebotId startApi content waId activeTypebotId st

/-! ### Redirect URL handling (src/services/typebot.service.ts) -/

/-- The parts of a parsed URL that extractTypebotIdFromUrl reads: the pathname
and the search parameters in order. -/
structure UrlParts where
  pathname : String
  query : List (String × String)
deriving Repr, DecidableEq

/-- First occurrence of a separator inside a character list, returning the text
before and after it. -/
def splitFirst (sep : List Char) : List Char → Option (List Char × List Char)
  | [] => if sep.isEmpty then some ([], []) else none
  | c :: t =>
      if sep.isPrefixOf (c :: t) then some ([], (c :: t).drop sep.length)
      else match splitFirst sep t with
        | some (l, r) => some (c :: l, r)
        | none => none

/-- Splitting at the first occurrence of a separator, with everything in the
first component when the separator is absent. -/
def splitFirstOrAll (sep : List Char) (cs : List Char) : List Char × List Char :=
  match splitFirst sep cs with
  | some (l, r) => (l, r)
  | none => (cs, [])

/-- One key-value pair of a query string: the text before the first equals sign
and the text after it (empty when there is none). -/
def parseQueryPair (cs : List Char) : String × String :=
  let (k, v) := splitFirstOrAll ['='] cs
  (String.mk k, String.mk v)

/-- Splitting a character list on every occurrence of a separator character. -/
def splitAllOn (sep : Char) : List Char → List (List Char)
  | [] => [[]]
  | c :: t =>
      if c = sep then [] :: splitAllOn sep t
      else match splitAllOn sep t with
        | piece :: rest => (c :: piece) :: rest
        | [] => [[c]]

/-- A model of the WHATWG URL constructor for ordinary absolute URLs of the
shape scheme://host/path?query#fragment: the fragment is cut off, the pathname
defaults to a single slash, and the query splits on ampersands into key-value
pairs.  A missing scheme separator or an empty scheme or host makes the
constructor throw, modelled as none.  Percent decoding is not applied, which is
faithful for URLs that use none. -/
def parseUrl (url : String) : Option UrlParts :=
  match splitFirst "://".data url.data with
  | none => none
  | some (scheme, rest) =>
      if scheme.isEmpty then none
      else
        let (beforeFrag, _) := splitFirstOrAll ['#'] rest
        let (hostPath, queryStr) := splitFirstOrAll ['?'] beforeFrag
        let (host, path) := splitFirstOrAll ['/'] hostPath
        if host.isEmpty then none
        else
          let pathname := String.mk ('/' :: path)
          let query :=
            (splitAllOn '&' queryStr).filterMap fun piece =>
              if piece.isEmpty then none else some (parseQueryPair piece)
          some ⟨pathname, query⟩

/-- The non-empty path segments of a parsed URL, as pathname.split on slashes
filtered to non-empty segments. -/
def pathSegments (u : UrlParts) : List String :=
  ((splitAllOn '/' u.pathname.data).map String.mk).filter fun s => s.length > 0

/-- The searchParams.get lookup: the value of the first pair with the given
key. -/
def searchParamGet (u : UrlParts) (key : String) : Option String :=
  u.query.lookup key

/-- The query-parameter fallback of extractTypebotIdFromUrl: the t, typebot and
id parameters tried in order with JavaScript truthiness, returning null when
the winner is absent or empty. -/
def queryFallback (u : UrlParts) : Option String :=
  match jsOrStr (jsOrStr (searchParamGet u "t") (searchParamGet u "typebot"))
      (searchParamGet u "id") with
  | some s => if s = "" then none else some s
  | none => none

/-- The extractTypebotIdFromUrl function of typebot.service.ts: a single path
segment is the typebot id; with two or more segments the second is taken when
the first is the literal collection prefix typebots; otherwise the query
parameters t, typebot and id are tried; an unparsable URL yields null. -/
def extractTypebotIdFromUrl (url : String) : Option String :=
  match parseUrl url with
  | none => none
  | some u =>
      match pathSegments u with
      | [s] => some s
      | s0 :: s1 :: _ => if s0 = "typebots" then some s1 else queryFallback u
      | [] => queryFallback u

/-- The updateTypebotInSession function of typebot.service.ts: an API
passthrough rebinding the remote session to a new typebot. -/
def updateTypebotInSession (api : Except String Unit) (sessionId newTypebotId : String) :
    ServiceResponse Unit × List ApiCall :=
  (toServiceResponse api, [.callUpdateTypebot sessionId newTypebotId])

/-- The handleTypebotRedirect function of typebot.service.ts: an unextractable
target yields a reported failure with the state untouched; otherwise the remote
session is updated and, on success, the new typebot slug is persisted for the
user together with the current session id. -/
def handleTypebotRedirect (updateApi : Except String Unit) (st : St)
    (redirectUrl : String) (sessionId : String) (waId : Option String) :
    ServiceResponse Unit × St × List ApiCall :=
  match extractTypebotIdFromUrl redirectUrl with
  | none =>
      (.fail ("Could not extract typebot slug from redirect URL: " ++ redirectUrl), st, [])
  | some newTypebotSlug =>
      let (updateResult, calls) := updateTypebotInSession updateApi sessionId newTypebotSlug
      match updateResult with
      | .fail e => (.fail e, st, calls)
      | .ok _ =>
          let st2 := match waId with
            | some w => (setActiveTypebotId st w newTypebotSlug (.val sessionId)).2
            | none => st
          (.ok (), st2, calls)

/-! ### The per-user lock (src/utils/user-lock.ts)

The withUserLock function is promise-chained: a caller reads the current lock
promise for the key, awaits it if present, then installs a fresh promise and
runs its operation, resolving the promise in a finally block that also deletes
the map entry when it is still the current one.  The model below is a
transition system over the callers contending for one key, faithful to the
JavaScript event loop: each transition is one synchronous span of a caller, and
the running phase (the operation itself, which contains await points) can
interleave with other callers' spans. -/

/-- The phase of one caller of withUserLock: about to read the lock map,
suspended awaiting a previously read lock promise, running its operation after
installing its own promise, or finished. -/
inductive ProcPhase where
  | entry
  | awaiting (lock : Nat)
  | running (own : Nat)
  | finished (own : Nat)
deriving Repr, DecidableEq

/-- The shared state of the withUserLock protocol for one key: each caller's
phase, the current map entry, the set of resolved promises and a supply of
fresh promise identities. -/
structure LockSystem (n : Nat) where
  procs : Fin n → ProcPhase
  lockMap : Option Nat
  resolved : List Nat
  fresh : Nat

/-- One synchronous span of one caller of withUserLock.  enterFree: the map is
empty, so the caller installs its promise and enters its operation in one
synchronous span.  enterBusy: the map holds a pending promise, so the caller
suspends on it.  wake: a caller whose awaited promise has been resolved is
scheduled, installs its own promise (overwriting the map) and enters its
operation.  finish: a running operation completes; the finally block resolves
the caller's promise and deletes the map entry only when it is still the
caller's own. -/
inductive LockStep {n : Nat} : LockSystem n → LockSystem n → Prop where
  | enterFree (i : Fin n) (s : LockSystem n) :
      s.procs i = .entry → s.lockMap = none →
      LockStep s { s with procs := Function.update s.procs i (.running s.fresh),
                          lockMap := some s.fresh, fresh := s.fresh + 1 }
  | enterBusy (i : Fin n) (s : LockSystem n) (l : Nat) :
      s.procs i = .entry → s.lockMap = some l →
      LockStep s { s with procs := Function.update s.procs i (.awaiting l) }
  | wake (i : Fin n) (s : LockSystem n) (l : Nat) :
      s.procs i = .awaiting l → l ∈ s.resolved →
      LockStep s { s with procs := Function.update s.procs i (.running s.fresh),
                          lockMap := some s.fresh, fresh := s.fresh + 1 }
  | finish (i : Fin n) (s : LockSystem n) (own : Nat) :
      s.procs i = .running own →
      LockStep s { s with procs := Function.update s.procs i (.finished own),
                          resolved := own :: s.resolved,
                          lockMap := if s.lockMap = some own then none else s.lockMap }

/-- Three callers contending for the same user key, none yet started. -/
def lockInit3 : LockSystem 3 :=
  ⟨fun _ => .entry, none, [], 0⟩

/-! ### Helper lemmas -/

/-- Looking up a key right after setting it yields the new value. -/
theorem lookup_mapSet {α : Type} (k : String) (v : α) (m : List (String × α)) :
    (mapSet k v m).lookup k = some v := by
  simp [mapSet, List.lookup]

/-- Looking up a key right after deleting it yields nothing. -/
theorem lookup_mapDelete {α : Type} (k : String) (m : List (String × α)) :
    (mapDelete k m).lookup k = none := by
  induction m with
  | nil => rfl
  | cons p t ih =>
      rcases p with ⟨a, b⟩
      simp only [mapDelete, List.filter_cons] at ih ⊢
      by_cases h : a = k
      · rw [if_neg (by simp [h])]
        exact ih
      · rw [if_pos (by simp [h])]
        have hk : (k == a) = false := by
          rw [beq_eq_false_iff_ne]
          exact Ne.symm h
        simp only [List.lookup, hk]
        exact ih

/-- A string of length zero is the empty string. -/
theorem eq_empty_of_length_zero (s : String) (h : ¬ s.length > 0) : s = "" := by
  rcases s with ⟨data⟩
  cases data with
  | nil => rfl
  | cons c t => simp [String.length] at h

/-- A trimmed character list is empty exactly when every character is
whitespace. -/
theorem trimList_eq_nil_iff (cs : List Char) :
    trimList cs = [] ↔ ∀ c ∈ cs, isSpaceChar c = true := by
  constructor
  · intro h c hc
    simp only [trimList, List.reverse_eq_nil_iff, List.dropWhile_eq_nil_iff,
      List.mem_reverse] at h
    rcases List.mem_append.mp
        (by rw [List.takeWhile_append_dropWhile]; exact hc :
          c ∈ cs.takeWhile isSpaceChar ++ cs.dropWhile isSpaceChar) with h1 | h2
    · exact List.mem_takeWhile_imp h1
    · exact h c h2
  · intro h
    have h1 : cs.dropWhile isSpaceChar = [] :=
      List.dropWhile_eq_nil_iff.mpr fun a ha => h a ha
    simp [trimList, h1]

/-- Lowercasing keeps whitespace characters unchanged. -/
theorem lowerChar_of_space (c : Char) (h : isSpaceChar c = true) : lowerChar c = c := by
  simp only [isSpaceChar, Bool.or_eq_true, Bool.and_eq_true, decide_eq_true_eq,
    beq_iff_eq] at h
  have h1 : ¬ (65 ≤ c.toNat ∧ c.toNat ≤ 90) := by omega
  have h2 : ¬ (192 ≤ c.toNat ∧ (c.toNat ≤ 222 ∧ c.toNat ≠ 215)) := by omega
  simp only [lowerChar, Bool.and_eq_true, decide_eq_true_eq, bne_iff_ne]
  rw [if_neg h1, if_neg (by tauto)]

/-- A blank input normalizes to the empty string: if the trimmed input is empty
then cleanText yields the empty string. -/
theorem cleanText_of_blank (s : String) (h : jsTrim s = "") : cleanText s = "" := by
  have hd : trimList s.data = [] := by
    have h2 := congrArg String.data h
    simpa [jsTrim] using h2
  have hall : ∀ c ∈ s.data, isSpaceChar c = true := (trimList_eq_nil_iff _).mp hd
  have hlow : trimList (s.data.map lowerChar) = [] := by
    apply (trimList_eq_nil_iff _).mpr
    intro c hc
    rcases List.mem_map.mp hc with ⟨c0, hc0, rfl⟩
    rw [lowerChar_of_space c0 (hall c0 hc0)]
    exact hall c0 hc0
  simp only [cleanText, hlow]
  rfl

/-- The spoken-number stage never matches against an empty choice list. -/
theorem wordStage_nil (t : String) : wordStage t [] = none := by
  unfold wordStage
  rw [List.findSome?_eq_none_iff]
  intro w _
  cases hl : numberWords.lookup (String.mk w) with
  | none => simp [hl]
  | some n =>
      simp only [hl, List.length_nil]
      rw [if_neg (by omega)]

/-- An empty needle is contained in every haystack. -/
theorem containsSub_nil_right (hay : List Char) : containsSub hay [] = true := by
  cases hay <;> rfl

/-- Choices whose label fails the containment test are skipped by
findExactMatch. -/
theorem findExactMatch_drop (ct : String) (pre rest : List ChoiceItem)
    (hpre : ∀ c2 ∈ pre,
      (containsSub ct.data (cleanText c2.content).data ||
       containsSub (cleanText c2.content).data ct.data) = false) :
    findExactMatch ct (pre ++ rest) = findExactMatch ct rest := by
  induction pre with
  | nil => rfl
  | cons p t2 ih =>
      have hp := hpre p (List.mem_cons_self p t2)
      simp only [List.cons_append, findExactMatch, List.findSome?_cons]
      rw [hp]
      exact ih fun c2 hc2 => hpre c2 (List.mem_cons_of_mem p hc2)

/-- A session id that is not the empty string passes the validity check. -/
theorem isValidSessionId_of_ne (s : String) (h : s ≠ "") :
    isValidSessionId s = true := by
  unfold isValidSessionId
  rw [decide_eq_true_eq]
  by_contra hlen
  exact h (eq_empty_of_length_zero s hlen)

/-- The active typebot slug getter never returns the empty string. -/
theorem getActiveTypebotId_ne_empty (st : St) (waId t : String)
    (h : getActiveTypebotId st waId = some t) : t ≠ "" := by
  unfold getActiveTypebotId at h
  cases hu : st.users.lookup waId with
  | none => simp only [hu] at h; exact Option.noConfusion h
  | some u =>
      simp only [hu] at h
      cases hs : u.activeTypebotSlug with
      | none => simp only [hs] at h; exact Option.noConfusion h
      | some s =>
          simp only [hs] at h
          by_cases he : s = ""
          · rw [if_pos he] at h; exact Option.noConfusion h
          · rw [if_neg he] at h
            cases h
            exact he

/-- The user table after setActiveTypebotId on an existing user: the slug is
set and the session id column is updated per the argument. -/
theorem setActiveTypebotId_users (st : St) (waId slug : String)
    (arg : SessionIdArg) (u : UserRecord) (hu : st.users.lookup waId = some u) :
    ((setActiveTypebotId st waId slug arg).2).users =
      mapSet waId ⟨some slug, applySessionIdArg u.activeSessionId arg⟩ st.users := by
  simp only [setActiveTypebotId, hu]
  cases h : st.choiceSessions.lookup waId with
  | some entry => simp [h]
  | none => simp [h]

/-! ### Claim theorems -/

/-- C4.  The periodic sweep does not remove exactly the expired entries: an
in-memory ChoiceSet stored at time 0 is evicted by a sweep run at minute 10,
although its expiry time createdAt + SESSION_TTL_MS (thirty minutes) is still
twenty minutes away; the matching durable row, whose expiry really is thirty
minutes, survives the same sweep, so the in-memory store and the durable store
disagree.  The sweep deletes in-memory entries older than five minutes, not
entries past expiresAt. -/
theorem sessionCleanupSweep_evicts_unexpired :
    ((sessionCleanupSweep
        ⟨[], [("u1", ⟨"sess1", [⟨"a", "Sim"⟩], 0, none⟩)], [],
         [("u1", ⟨"sess1", [⟨"a", "Sim"⟩], none, SESSION_TTL_MS⟩)], []⟩
        600000).choiceSessions).lookup "u1" = none ∧
    (600000 : Int) < 0 + SESSION_TTL_MS ∧
    ((sessionCleanupSweep
        ⟨[], [("u1", ⟨"sess1", [⟨"a", "Sim"⟩], 0, none⟩)], [],
         [("u1", ⟨"sess1", [⟨"a", "Sim"⟩], none, SESSION_TTL_MS⟩)], []⟩
        600000).dbChoices).lookup "u1" =
      some ⟨"sess1", [⟨"a", "Sim"⟩], none, SESSION_TTL_MS⟩ := by
  refine ⟨by decide, by decide, by decide⟩

/-- C5.  Time-to-live behaviour of getActiveChoices: for an entry stored at
time t0, a call strictly later than t0 plus thirty minutes returns null and
deletes the entry from the in-memory map (a direct lookup afterwards finds
nothing); a call at or before t0 plus thirty minutes returns the stored choices
with the state untouched. -/
theorem getActiveChoices_ttl (st : St) (now : Int) (waId : String)
    (e : ChoiceSessionEntry) (hlook : st.choiceSessions.lookup waId = some e) :
    (e.timestamp + 30 * 60 * 1000 < now →
      getActiveChoices st now waId =
        (none, { st with choiceSessions := mapDelete waId st.choiceSessions }) ∧
      ({ st with choiceSessions := mapDelete waId st.choiceSessions }
          : St).choiceSessions.lookup waId = none) ∧
    (now ≤ e.timestamp + 30 * 60 * 1000 →
      getActiveChoices st now waId = (some e.choices, st)) := by
  constructor
  · intro h
    refine ⟨?_, lookup_mapDelete waId st.choiceSessions⟩
    simp only [getActiveChoices, hlook]
    rw [if_pos (by omega)]
  · intro h
    simp only [getActiveChoices, hlook]
    rw [if_neg (by omega)]

/-- Witness for C5 at a concrete store: an entry stored at time 0 is gone at
minute 31 and intact at minute 28. -/
theorem getActiveChoices_ttl_witness :
    (getActiveChoices
        ⟨[], [("u1", ⟨"sess1", [⟨"a", "Sim"⟩], 0, none⟩)], [], [], []⟩
        1860000 "u1" =
      (none,
        { (⟨[], [("u1", ⟨"sess1", [⟨"a", "Sim"⟩], 0, none⟩)], [], [], []⟩ : St) with
          choiceSessions :=
            mapDelete "u1" [("u1", ⟨"sess1", [⟨"a", "Sim"⟩], 0, none⟩)] }) ∧
      ({ (⟨[], [("u1", ⟨"sess1", [⟨"a", "Sim"⟩], 0, none⟩)], [], [], []⟩ : St) with
          choiceSessions :=
            mapDelete "u1" [("u1", ⟨"sess1", [⟨"a", "Sim"⟩], 0, none⟩)] }
          : St).choiceSessions.lookup "u1" = none) ∧
    getActiveChoices
        ⟨[], [("u1", ⟨"sess1", [⟨"a", "Sim"⟩], 0, none⟩)], [], [], []⟩
        1680000 "u1" =
      (some [⟨"a", "Sim"⟩],
        ⟨[], [("u1", ⟨"sess1", [⟨"a", "Sim"⟩], 0, none⟩)], [], [], []⟩) :=
  ⟨(getActiveChoices_ttl
        ⟨[], [("u1", ⟨"sess1", [⟨"a", "Sim"⟩], 0, none⟩)], [], [], []⟩
        1860000 "u1" ⟨"sess1", [⟨"a", "Sim"⟩], 0, none⟩ rfl).1 (by decide),
   (getActiveChoices_ttl
        ⟨[], [("u1", ⟨"sess1", [⟨"a", "Sim"⟩], 0, none⟩)], [], [], []⟩
        1680000 "u1" ⟨"sess1", [⟨"a", "Sim"⟩], 0, none⟩ rfl).2 (by decide)⟩

/-- C6.  Numeric literal resolution: whenever the normalized input's first
boundary-delimited integer token has value n with 1 at most n at most the
number of choices, the matcher returns the choice at position n minus one with
score one, for every fuzzy collaborator. -/
theorem matchTranscription_numeric
    (fuse : List ChoiceItem → String → List FuseResult)
    (raw : String) (choices : List ChoiceItem) (run : List Char)
    (hrun : findFirstDigitRun (cleanText raw).data = some run)
    (h1 : 1 ≤ parseDigits run) (h2 : parseDigits run ≤ choices.length) :
    matchTranscriptionToChoice fuse raw choices =
      (choices.get? (parseDigits run - 1)).map fun c =>
        (⟨c.id, c.content, 1⟩ : ChoiceMatchResult) := by
  have hnb : jsTrim raw ≠ "" := by
    intro hb
    rw [cleanText_of_blank raw hb] at hrun
    exact Option.noConfusion hrun
  have hne : choices ≠ [] := by
    intro hc
    subst hc
    simp only [List.length_nil] at h2
    omega
  obtain ⟨c, hc⟩ : ∃ c, choices.get? (parseDigits run - 1) = some c := by
    cases hg : choices.get? (parseDigits run - 1) with
    | some c => exact ⟨c, rfl⟩
    | none =>
        rw [List.get?_eq_none] at hg
        omega
  have hd : digitStage (cleanText raw) choices = some ⟨c.id, c.content, 1⟩ := by
    simp only [digitStage, hrun]
    rw [if_pos ⟨h1, h2⟩, hc]
    rfl
  simp only [matchTranscriptionToChoice]
  rw [if_neg (by simp [hnb, hne])]
  simp only [findNumericMatch, hd, hc]
  rfl

/-- Witness for C6: with choices Sim and Não, the input 2 selects the second
choice with score one. -/
theorem matchTranscription_numeric_witness :
    matchTranscriptionToChoice (fun _ _ => []) "2" [⟨"a", "Sim"⟩, ⟨"b", "Não"⟩] =
      some ⟨"b", "Não", 1⟩ :=
  (matchTranscription_numeric (fun _ _ => []) "2" [⟨"a", "Sim"⟩, ⟨"b", "Não"⟩]
      ['2'] (by decide) (by decide) (by decide)).trans (by decide)

/-- C7 counterexample.  The spoken-number stage is not decisive: for the input
1 segundo, the token segundo is present in the normalized input and maps to the
in-range value two in the numberWords table, yet resolution returns the FIRST
choice (the digit stage wins), not the second as the claim requires.  Moreover
the table does not cover ordinal forms up to one hundred: the ordinal for
twenty-one is absent. -/
theorem numberWord_token_not_decisive :
    "segundo".data ∈ splitWs (cleanText "1 segundo").data ∧
    numberWords.lookup "segundo" = some 2 ∧
    (2 : Nat) ≤ ([⟨"a", "Sim"⟩, ⟨"b", "Não"⟩] : List ChoiceItem).length ∧
    matchTranscriptionToChoice (fun _ _ => []) "1 segundo"
        [⟨"a", "Sim"⟩, ⟨"b", "Não"⟩] = some ⟨"a", "Sim", 1⟩ ∧
    numberWords.lookup "vigésimo primeiro" = none := by
  refine ⟨by decide, by decide, by decide, by decide, by decide⟩

/-- C7 as amended.  When the digit stage finds nothing, the spoken-number stage
decides: scanning the whitespace-separated tokens of the normalized input in
order, the first one that is a key of the numberWords table with value n, with
1 at most n at most the number of choices, selects the choice at position n
minus one with score one, and that result is what resolution returns. -/
theorem matchTranscription_word_stage
    (fuse : List ChoiceItem → String → List FuseResult)
    (raw : String) (choices : List ChoiceItem) (r : ChoiceMatchResult)
    (hd : digitStage (cleanText raw) choices = none)
    (hw : wordStage (cleanText raw) choices = some r) :
    matchTranscriptionToChoice fuse raw choices = some r := by
  have hne : choices ≠ [] := by
    intro hc
    subst hc
    rw [wordStage_nil] at hw
    exact Option.noConfusion hw
  have hnb : jsTrim raw ≠ "" := by
    intro hb
    rw [cleanText_of_blank raw hb] at hw
    have hz : wordStage "" choices = none := rfl
    rw [hz] at hw
    exact Option.noConfusion hw
  simp only [matchTranscriptionToChoice]
  rw [if_neg (by simp [hnb, hne])]
  simp only [findNumericMatch, hd, hw]

/-- Witness for C7 as amended: the input segundo with choices Sim and Não
selects the second choice with score one. -/
theorem matchTranscription_word_stage_witness :
    matchTranscriptionToChoice (fun _ _ => []) "segundo" [⟨"a", "Sim"⟩, ⟨"b", "Não"⟩] =
      some ⟨"b", "Não", 1⟩ :=
  matchTranscription_word_stage (fun _ _ => []) "segundo" [⟨"a", "Sim"⟩, ⟨"b", "Não"⟩]
    ⟨"b", "Não", 1⟩ (by decide) (by decide)

/-- C8.  Exact containment: when the numeric stage (digit and spoken-number)
found nothing and the input is not blank, the first choice in list order whose
normalized label is contained in the normalized input or contains it is
returned with score one, for every fuzzy collaborator. -/
theorem matchTranscription_exact
    (fuse : List ChoiceItem → String → List FuseResult)
    (raw : String) (pre : List ChoiceItem) (c : ChoiceItem) (post : List ChoiceItem)
    (hnb : jsTrim raw ≠ "")
    (hnum : findNumericMatch (cleanText raw) (pre ++ c :: post) = none)
    (hpre : ∀ c2 ∈ pre,
      (containsSub (cleanText raw).data (cleanText c2.content).data ||
       containsSub (cleanText c2.content).data (cleanText raw).data) = false)
    (hc : (containsSub (cleanText raw).data (cleanText c.content).data ||
           containsSub (cleanText c.content).data (cleanText raw).data) = true) :
    matchTranscriptionToChoice fuse raw (pre ++ c :: post) =
      some ⟨c.id, c.content, 1⟩ := by
  have hex : findExactMatch (cleanText raw) (pre ++ c :: post) =
      some ⟨c.id, c.content, 1⟩ := by
    rw [findExactMatch_drop _ pre _ hpre]
    simp only [findExactMatch, List.findSome?_cons]
    rw [hc]
    rfl
  simp only [matchTranscriptionToChoice]
  rw [if_neg (by simp [hnb])]
  simp only [hnum, hex]

/-- Witness for C8: the input sim against choices Sim and Não selects the first
choice with score one. -/
theorem matchTranscription_exact_witness :
    matchTranscriptionToChoice (fun _ _ => []) "sim" [⟨"a", "Sim"⟩, ⟨"b", "Não"⟩] =
      some ⟨"a", "Sim", 1⟩ :=
  matchTranscription_exact (fun _ _ => []) "sim" [] ⟨"a", "Sim"⟩ [⟨"b", "Não"⟩]
    (by decide) (by decide) (by simp) (by decide)

/-- C9.  Fuzzy threshold and no-match: when no earlier stage matched, the
matcher inspects the best row reported by the fuzzy collaborator; with
confidence one minus the Fuse score below two fifths (or no rows at all) it
returns none as an ordinary value of its option result type, never an
exception, and with confidence at least two fifths it returns that best row. -/
theorem matchTranscription_fuzzy
    (fuse : List ChoiceItem → String → List FuseResult)
    (raw : String) (choices : List ChoiceItem)
    (hnb : jsTrim raw ≠ "") (hne : choices ≠ [])
    (hnum : findNumericMatch (cleanText raw) choices = none)
    (hex : findExactMatch (cleanText raw) choices = none) :
    (∀ (r : FuseResult) (q : ℚ),
      (fuse choices (cleanText raw)).head? = some r → r.score = some q →
      matchTranscriptionToChoice fuse raw choices =
        if (1 - q : ℚ) ≥ 2 / 5 then some ⟨r.item.id, r.item.content, 1 - q⟩
        else none) ∧
    (fuse choices (cleanText raw) = [] →
      matchTranscriptionToChoice fuse raw choices = none) := by
  constructor
  · intro r q hh hs
    obtain ⟨l, hl⟩ : ∃ l, fuse choices (cleanText raw) = r :: l := by
      cases hf : fuse choices (cleanText raw) with
      | nil => rw [hf] at hh; exact Option.noConfusion hh
      | cons a l =>
          rw [hf] at hh
          simp only [List.head?_cons, Option.some.injEq] at hh
          exact ⟨l, by rw [hh]⟩
    simp only [matchTranscriptionToChoice]
    rw [if_neg (by simp [hnb, hne])]
    simp only [hnum, hex, hl, hs]
  · intro hf
    simp only [matchTranscriptionToChoice]
    rw [if_neg (by simp [hnb, hne])]
    simp only [hnum, hex, hf]

/-- Witness for C9: for the input talvez against Sim and Não, a collaborator
row with Fuse score seven tenths (confidence three tenths, below the
threshold) yields none, and an empty collaborator result also yields none. -/
theorem matchTranscription_fuzzy_witness :
    matchTranscriptionToChoice (fun _ _ => [⟨⟨"b", "Não"⟩, some (7 / 10)⟩]) "talvez"
        [⟨"a", "Sim"⟩, ⟨"b", "Não"⟩] = none ∧
    matchTranscriptionToChoice (fun _ _ => []) "talvez"
        [⟨"a", "Sim"⟩, ⟨"b", "Não"⟩] = none := by
  constructor
  · have h := (matchTranscription_fuzzy
        (fun _ _ => [⟨⟨"b", "Não"⟩, some (7 / 10)⟩]) "talvez"
        [⟨"a", "Sim"⟩, ⟨"b", "Não"⟩]
        (by decide) (by decide) (by decide) (by decide)).1
        ⟨⟨"b", "Não"⟩, some (7 / 10)⟩ (7 / 10) rfl rfl
    rw [if_neg (by norm_num)] at h
    exact h
  · exact (matchTranscription_fuzzy (fun _ _ => []) "talvez"
        [⟨"a", "Sim"⟩, ⟨"b", "Não"⟩]
        (by decide) (by decide) (by decide) (by decide)).2 rfl

/-- C10 counterexample.  The input então, né! is non-blank and consists only of
filler words and punctuation, yet it does NOT normalize to the empty string:
the word-boundary anchor of the filler regex fails after the accented é (a
non-word character for the regex engine), so né survives as the letter n, and
resolution against Sim and Não returns the SECOND choice (whose normalized
label n o contains n), not the first as the claim requires. -/
theorem filler_input_does_not_normalize_empty :
    cleanText "então, né!" = "n" ∧
    jsTrim "então, né!" ≠ "" ∧
    matchTranscriptionToChoice (fun _ _ => []) "então, né!"
        [⟨"a", "Sim"⟩, ⟨"b", "Não"⟩] = some ⟨"b", "Não", 1⟩ := by
  refine ⟨by decide, by decide, by decide⟩

/-- C10 as amended.  A non-blank raw input that does normalize to the empty
string resolves to the first choice with score one, because the empty
normalized input is contained in every normalized label; and a raw input that
is blank before normalization returns none immediately. -/
theorem matchTranscription_empty_clean
    (fuse : List ChoiceItem → String → List FuseResult)
    (raw : String) (c : ChoiceItem) (rest : List ChoiceItem)
    (hnb : jsTrim raw ≠ "") (hclean : cleanText raw = "") :
    matchTranscriptionToChoice fuse raw (c :: rest) = some ⟨c.id, c.content, 1⟩ ∧
    (∀ (fuse2 : List ChoiceItem → String → List FuseResult) (raw2 : String)
       (choices2 : List ChoiceItem), jsTrim raw2 = "" →
       matchTranscriptionToChoice fuse2 raw2 choices2 = none) := by
  constructor
  · simp only [matchTranscriptionToChoice]
    rw [if_neg (by simp [hnb])]
    rw [hclean]
    have hnum : findNumericMatch "" (c :: rest) = none := by
      have hd : digitStage "" (c :: rest) = none := rfl
      have hw : wordStage "" (c :: rest) = none := rfl
      simp only [findNumericMatch, hd, hw]
    have hex : findExactMatch "" (c :: rest) = some ⟨c.id, c.content, 1⟩ := by
      simp only [findExactMatch, List.findSome?_cons]
      rw [show (containsSub ("" : String).data (cleanText c.content).data ||
          containsSub (cleanText c.content).data ("" : String).data) = true by
        simp [containsSub_nil_right]]
      rfl
    simp only [hnum, hex]
  · intro fuse2 raw2 choices2 hb2
    simp only [matchTranscriptionToChoice]
    rw [if_pos (Or.inl hb2)]

/-- Witness for C10 as amended: tipo, assim! is non-blank, normalizes to the
empty string and resolves to the first choice; a whitespace-only input returns
none. -/
theorem matchTranscription_empty_clean_witness :
    matchTranscriptionToChoice (fun _ _ => []) "tipo, assim!"
        [⟨"a", "Sim"⟩, ⟨"b", "Não"⟩] = some ⟨"a", "Sim", 1⟩ ∧
    matchTranscriptionToChoice (fun _ _ => []) "   "
        [⟨"a", "Sim"⟩, ⟨"b", "Não"⟩] = none :=
  ⟨(matchTranscription_empty_clean (fun _ _ => []) "tipo, assim!" ⟨"a", "Sim"⟩
      [⟨"b", "Não"⟩] (by decide) (by decide)).1,
   (matchTranscription_empty_clean (fun _ _ => []) "tipo, assim!" ⟨"a", "Sim"⟩
      [⟨"b", "Não"⟩] (by decide) (by decide)).2 (fun _ _ => []) "   "
      [⟨"a", "Sim"⟩, ⟨"b", "Não"⟩] (by decide)⟩

/-- C2.  Session-not-found recovery: when the user has a stored session id and
the continue call fails with an error mentioning Session not found while the
subsequent start succeeds, the result is the start response, the operation
performs exactly one continue call followed by exactly one start call (no
second retry) with the start addressed to the user's active typebot slug or
the configured default when none is set, and the session id returned by the
start becomes the user's new active session id. -/
theorem interactWithTypebot_session_recovery
    (defaultId e content : String) (resp : ChatResponse) (st : St)
    (waId sid : String) (u : UserRecord)
    (hu : st.users.lookup waId = some u)
    (hsid : u.activeSessionId = some sid) (hne : sid ≠ "")
    (herr : containsSub e.data "Session not found".data = true)
    (hresp : resp.sessionId ≠ "") :
    (interactWithTypebot defaultId (.error e) (.ok resp) st content none (some waId) none).1 =
      .ok resp ∧
    (interactWithTypebot defaultId (.error e) (.ok resp) st content none (some waId) none).2.2 =
      [.callContinue sid content,
       .callStart ((getActiveTypebotId st waId).getD defaultId) content] ∧
    getActiveSessionId
      (interactWithTypebot defaultId (.error e) (.ok resp) st content none (some waId) none).2.1
      waId = some resp.sessionId := by
  have hsess : getActiveSessionId st waId = some sid := by
    simp [getActiveSessionId, hu, hsid, hne]
  have hv : isValidSessionId sid = true := isValidSessionId_of_ne sid hne
  have hu1 := setActiveTypebotId_users st waId
    ((getActiveTypebotId st waId).getD defaultId) .null u hu
  set st2 := (setActiveTypebotId st waId
    ((getActiveTypebotId st waId).getD defaultId) .null).2 with hst2
  have hu2 : st2.users.lookup waId =
      some ⟨some ((getActiveTypebotId st waId).getD defaultId), none⟩ := by
    rw [hu1]
    exact lookup_mapSet _ _ _
  have hstart : ∀ tbid : Option String,
      tbid = getActiveTypebotId st waId →
      startChat defaultId (.ok resp) content (some waId) tbid st2 =
        (.ok resp,
         (setActiveTypebotId st2 waId ((getActiveTypebotId st waId).getD defaultId)
            (.val resp.sessionId)).2,
         [.callStart ((getActiveTypebotId st waId).getD defaultId) content]) := by
    intro tbid htb
    cases hT : getActiveTypebotId st waId with
    | none => rw [hT] at htb; subst htb; simp [startChat, hT]
    | some t =>
        have ht : t ≠ "" := getActiveTypebotId_ne_empty st waId t hT
        rw [hT] at htb
        subst htb
        simp [startChat, hT, ht]
  simp only [interactWithTypebot, hsess, jsOrStr, hv, if_true, continueChat,
    toServiceResponse, herr]
  have hmatch : (match getActiveTypebotId st waId with
      | some t => t
      | none => defaultId) = (getActiveTypebotId st waId).getD defaultId := by
    cases getActiveTypebotId st waId <;> rfl
  rw [hmatch, ← hst2, hstart (getActiveTypebotId st waId) rfl]
  refine ⟨rfl, rfl, ?_⟩
  have hu3 := setActiveTypebotId_users st2 waId
    ((getActiveTypebotId st waId).getD defaultId) (.val resp.sessionId) _ hu2
  simp only [getActiveSessionId, hu3, lookup_mapSet]
  simp [applySessionIdArg, hresp]

/-- Witness for C2 at a concrete store: the continue call fails with a
session-not-found error, one start call to the user's active typebot oldflow
follows, and the new session id sess2 is persisted. -/
theorem interactWithTypebot_session_recovery_witness :
    (interactWithTypebot "default-bot"
        (.error "Typebot API error: 404 Not Found - Session not found.")
        (.ok ⟨"sess2"⟩)
        ⟨[("u1", ⟨some "oldflow", some "sess1"⟩)], [], [], [], []⟩
        "hello" none (some "u1") none).1 = .ok ⟨"sess2"⟩ ∧
    (interactWithTypebot "default-bot"
        (.error "Typebot API error: 404 Not Found - Session not found.")
        (.ok ⟨"sess2"⟩)
        ⟨[("u1", ⟨some "oldflow", some "sess1"⟩)], [], [], [], []⟩
        "hello" none (some "u1") none).2.2 =
      [.callContinue "sess1" "hello", .callStart "oldflow" "hello"] ∧
    getActiveSessionId
      (interactWithTypebot "default-bot"
          (.error "Typebot API error: 404 Not Found - Session not found.")
          (.ok ⟨"sess2"⟩)
          ⟨[("u1", ⟨some "oldflow", some "sess1"⟩)], [], [], [], []⟩
          "hello" none (some "u1") none).2.1 "u1" = some "sess2" := by
  have h := interactWithTypebot_session_recovery "default-bot"
      "Typebot API error: 404 Not Found - Session not found." "hello" ⟨"sess2"⟩
      ⟨[("u1", ⟨some "oldflow", some "sess1"⟩)], [], [], [], []⟩
      "u1" "sess1" ⟨some "oldflow", some "sess1"⟩ rfl rfl (by decide) (by decide)
      (by decide)
  exact ⟨h.1, h.2.1.trans (by decide), h.2.2⟩

/-- C3 counterexample.  A redirect URL whose path ends in flows slash newflow
is NOT resolvable: the only collection prefix the extractor recognizes is the
literal typebots, so extraction yields null, redirect handling returns a
reported failure with the state untouched, and the user's active typebot slug
stays oldflow rather than becoming newflow. -/
theorem redirect_flows_url_unresolvable :
    extractTypebotIdFromUrl "https://typebot.io/flows/newflow" = none ∧
    handleTypebotRedirect (.ok ())
        ⟨[("u1", ⟨some "oldflow", some "sess1"⟩)], [], [], [], []⟩
        "https://typebot.io/flows/newflow" "sess1" (some "u1") =
      (.fail
        "Could not extract typebot slug from redirect URL: https://typebot.io/flows/newflow",
       ⟨[("u1", ⟨some "oldflow", some "sess1"⟩)], [], [], [], []⟩, []) ∧
    getActiveTypebotId
        ⟨[("u1", ⟨some "oldflow", some "sess1"⟩)], [], [], [], []⟩ "u1" =
      some "oldflow" := by
  refine ⟨by decide, by decide, by decide⟩

/-- C3 as amended.  For a redirect URL whose path consists of the collection
prefix typebots followed by the flow identifier, extraction returns that
identifier, and successful redirect handling leaves the user with the new flow
as active typebot slug and the active session id unchanged; a redirect whose
target cannot be extracted yields a reported failure value, never an exception,
with the state untouched. -/
theorem redirect_typebots_url
    (url : String) (up : UrlParts) (slug : String) (st : St)
    (waId sessionId : String) (u : UserRecord)
    (hparse : parseUrl url = some up)
    (hsegs : pathSegments up = ["typebots", slug])
    (hu : st.users.lookup waId = some u)
    (hsess : u.activeSessionId = some sessionId) :
    extractTypebotIdFromUrl url = some slug ∧
    (handleTypebotRedirect (.ok ()) st url sessionId (some waId)).1 = .ok () ∧
    ((handleTypebotRedirect (.ok ()) st url sessionId (some waId)).2.1).users.lookup waId =
      some ⟨some slug, some sessionId⟩ ∧
    (∀ (url2 : String) (upd : Except String Unit) (st2 : St) (sid2 : String)
       (w2 : Option String), extractTypebotIdFromUrl url2 = none →
       handleTypebotRedirect upd st2 url2 sid2 w2 =
         (.fail ("Could not extract typebot slug from redirect URL: " ++ url2),
          st2, [])) := by
  have hex : extractTypebotIdFromUrl url = some slug := by
    simp only [extractTypebotIdFromUrl, hparse, hsegs]
    simp
  refine ⟨hex, ?_, ?_, ?_⟩
  · simp only [handleTypebotRedirect, hex, updateTypebotInSession, toServiceResponse]
  · simp only [handleTypebotRedirect, hex, updateTypebotInSession, toServiceResponse]
    rw [setActiveTypebotId_users st waId slug (.val sessionId) u hu, lookup_mapSet]
    simp [applySessionIdArg, hsess]
  · intro url2 upd st2 sid2 w2 hnone
    simp only [handleTypebotRedirect, hnone]

/-- Witness for C3 as amended: the URL with path typebots slash newflow yields
newflow, which becomes the active typebot slug while the session id sess1 is
unchanged; and the flows-prefixed URL yields the reported failure. -/
theorem redirect_typebots_url_witness :
    extractTypebotIdFromUrl "https://typebot.io/typebots/newflow" = some "newflow" ∧
    ((handleTypebotRedirect (.ok ())
        ⟨[("u1", ⟨some "oldflow", some "sess1"⟩)], [], [], [], []⟩
        "https://typebot.io/typebots/newflow" "sess1" (some "u1")).2.1).users.lookup "u1" =
      some ⟨some "newflow", some "sess1"⟩ ∧
    handleTypebotRedirect (.error "down")
        ⟨[], [], [], [], []⟩ "https://typebot.io/flows/x" "s" none =
      (.fail "Could not extract typebot slug from redirect URL: https://typebot.io/flows/x",
       ⟨[], [], [], [], []⟩, []) := by
  have h := redirect_typebots_url "https://typebot.io/typebots/newflow"
      ⟨"/typebots/newflow", []⟩ "newflow"
      ⟨[("u1", ⟨some "oldflow", some "sess1"⟩)], [], [], [], []⟩
      "u1" "sess1" ⟨some "oldflow", some "sess1"⟩ (by decide) (by decide) rfl rfl
  exact ⟨h.1, h.2.2.1,
    h.2.2.2 "https://typebot.io/flows/x" (.error "down") ⟨[], [], [], [], []⟩ "s" none
      (by decide)⟩

/-- C1.  The withUserLock protocol does not serialize every pair of operations
on the same key: with three contenders, after the first holder finishes, both
waiters of its promise become runnable, each installs its own promise and runs
its operation, so a reachable state of the protocol has two operations in
flight for the same user at once.  The trace is the real event-loop schedule:
caller 0 acquires, callers 1 and 2 read and await caller 0's promise, caller 0
finishes and resolves it, then callers 1 and 2 both resume. -/
theorem lockStep_two_operations_in_flight :
    ∃ s : LockSystem 3, Relation.ReflTransGen LockStep lockInit3 s ∧
      s.procs 1 = ProcPhase.running 1 ∧ s.procs 2 = ProcPhase.running 2 := by
  have h := Relation.ReflTransGen.head (LockStep.enterFree 0 lockInit3 rfl rfl)
    (Relation.ReflTransGen.head (LockStep.enterBusy 1 _ 0 (by decide) rfl)
      (Relation.ReflTransGen.head (LockStep.enterBusy 2 _ 0 (by decide) rfl)
        (Relation.ReflTransGen.head (LockStep.finish 0 _ 0 (by decide))
          (Relation.ReflTransGen.head (LockStep.wake 1 _ 0 (by decide) (by simp))
            (Relation.ReflTransGen.head (LockStep.wake 2 _ 0 (by decide) (by simp))
              Relation.ReflTransGen.refl)))))
  exact ⟨_, h, by decide, by decide⟩

end Typebot
